import Mathlib

/-!
Shallow embedding of the serial-rs repository (rnd-ash/serial-rs) for
specification checking.

The repository is a cross-platform serial-port library with two backends:
a POSIX backend (`src/posix/mod.rs`, `TTYPort`) built on termios/poll, and
a Windows backend (`src/windows/mod.rs`, `COMPort`) built on DCB /
COMMTIMEOUTS / overlapped I/O.  The shared data model (settings, errors,
traits) lives in `src/lib.rs`.

Native OS calls (tcgetattr/tcsetattr, GetCommState/SetCommState, poll,
ReadFile, ...) are modelled as explicit state passing: the device's termios
attributes / DCB+COMMTIMEOUTS are an input and output of the reconfigure
functions, and the outcomes of the nondeterministic OS interactions
(poll readiness, ReadFile completion, GetLastError) are explicit oracle
parameters.  Where a claim is about the pure configuration algebra, the
native set-calls are modelled as succeeding; failures of the native calls
themselves are orthogonal to every claim treated here.
-/

namespace SerialRs

/-! ## Data model (src/lib.rs) -/

/-- Source `ByteSize` enum, src/lib.rs. -/
inductive ByteSize
  | Five
  | Six
  | Seven
  | Eight
deriving DecidableEq, Repr

/-- Source `Parity` enum, src/lib.rs (no Mark/Space variants exist in this crate). -/
inductive Parity
  | None
  | Even
  | Odd
deriving DecidableEq, Repr

/-- Source `StopBits` enum, src/lib.rs. -/
inductive StopBits
  | One
  | OnePointFive
  | Two
deriving DecidableEq, Repr

/-- Source `FlowControl` enum, src/lib.rs. -/
inductive FlowControl
  | None
  | DsrDtr
  | XonXoff
  | RtsCts
deriving DecidableEq, Repr

/-- Source `SerialPortSettings` struct, src/lib.rs.  Timeouts are `Option<u128>`
milliseconds in the source; `u128` values are modelled as `Nat` (all
arithmetic on them in the source stays far below `2^128`, and the one
narrowing cast to `u32` on the Windows backend is modelled explicitly
with `% 2^32`). -/
structure SerialPortSettings where
  baud_rate : Nat
  byte_size : ByteSize
  parity : Parity
  stop_bits : StopBits
  read_timeout : Option Nat
  flow_control : FlowControl
  write_timeout : Option Nat
  inter_byte_timeout : Option Nat
  blocking : Bool
deriving DecidableEq, Repr

/-- Source `impl Default for SerialPortSettings`, src/lib.rs: 9600-8-N-1,
no flow control, no timeouts, blocking. -/
def SerialPortSettings.default : SerialPortSettings :=
  { baud_rate := 9600
    byte_size := ByteSize.Eight
    parity := Parity.None
    stop_bits := StopBits.One
    read_timeout := none
    write_timeout := none
    flow_control := FlowControl.None
    inter_byte_timeout := none
    blocking := true }

/-- Kinds of `std::io::Error` used by the crate (`std::io::ErrorKind`). -/
inductive ErrorKind
  | TimedOut
  | BrokenPipe
  | Interrupted
  | InvalidData
  | OutOfMemory
  | Other
deriving DecidableEq, Repr

/-- A `std::io::Error`: a kind plus a message. -/
structure StdIoError where
  kind : ErrorKind
  msg : String
deriving DecidableEq, Repr

/-- Source `SerialError` enum, src/lib.rs. -/
inductive SerialError
  | IoError (e : StdIoError)
  | OsError (code : Nat) (desc : String)
  | LibraryError (msg : String)
deriving DecidableEq, Repr

/-! ## POSIX backend: termios model (src/posix/mod.rs)

The termios flag registers are modelled as structures of named booleans,
one field per flag the crate touches plus one representative untouched
flag per register (reconfiguration reads the current attributes with
`tcgetattr` and only sets/clears specific bits, so unrelated flags are
carried through).  The byte-size field CSIZE is a two-bit field on Linux
(CS5 = no bits, CS6 = bit 4, CS7 = bit 5, CS8 = both); the source ORs the
chosen CSn constant into `control_flags` without clearing CSIZE first, and
the model reproduces exactly that bit-level behaviour via the two fields
`cs_bit4`/`cs_bit5`. -/

/-- Source `nix::sys::termios::BaudRate` constants appearing in the Linux
baud-rate table of `TTYPort::reconfigure_port`. -/
inductive BaudRate
  | B50 | B75 | B110 | B134 | B150 | B200 | B300 | B600
  | B1200 | B1800 | B2400 | B4800 | B9600 | B19200 | B38400 | B57600
  | B115200 | B230400 | B460800 | B500000 | B576000 | B921600
  | B1000000 | B1152000 | B1500000 | B2000000 | B2500000 | B3000000
  | B3500000 | B4000000
deriving DecidableEq, Repr

/-- The numeric line rate each native `BaudRate` constant denotes. -/
def BaudRate.rate : BaudRate → Nat
  | B50 => 50 | B75 => 75 | B110 => 110 | B134 => 134
  | B150 => 150 | B200 => 200 | B300 => 300 | B600 => 600
  | B1200 => 1200 | B1800 => 1800 | B2400 => 2400 | B4800 => 4800
  | B9600 => 9600 | B19200 => 19200 | B38400 => 38400 | B57600 => 57600
  | B115200 => 115200 | B230400 => 230400 | B460800 => 460800
  | B500000 => 500000 | B576000 => 576000 | B921600 => 921600
  | B1000000 => 1000000 | B1152000 => 1152000 | B1500000 => 1500000
  | B2000000 => 2000000 | B2500000 => 2500000 | B3000000 => 3000000
  | B3500000 => 3500000 | B4000000 => 4000000

/-- The Linux baud-rate enumeration table of `TTYPort::reconfigure_port`
(src/posix/mod.rs lines 83-115): the `match self.settings.baud_rate`
arms, `none` for the fall-through `_` arm. -/
def baudFromU32 : Nat → Option BaudRate
  | 50 => some .B50
  | 75 => some .B75
  | 110 => some .B110
  | 134 => some .B134
  | 150 => some .B150
  | 200 => some .B200
  | 300 => some .B300
  | 600 => some .B600
  | 1200 => some .B1200
  | 1800 => some .B1800
  | 2400 => some .B2400
  | 4800 => some .B4800
  | 9600 => some .B9600
  | 19200 => some .B19200
  | 38400 => some .B38400
  | 57600 => some .B57600
  | 115200 => some .B115200
  | 230400 => some .B230400
  | 460800 => some .B460800
  | 500000 => some .B500000
  | 576000 => some .B576000
  | 921600 => some .B921600
  | 1000000 => some .B1000000
  | 1152000 => some .B1152000
  | 1500000 => some .B1500000
  | 2000000 => some .B2000000
  | 2500000 => some .B2500000
  | 3000000 => some .B3000000
  | 3500000 => some .B3500000
  | 4000000 => some .B4000000
  | _ => none

/-- termios `c_cflag` register: the control flags the crate touches, plus
`hupcl` as a representative untouched flag.  `cs_bit4`/`cs_bit5` are the
two bits of the CSIZE field (CS6 = bit4, CS7 = bit5, CS8 = both). -/
structure ControlFlags where
  clocal : Bool
  cread : Bool
  cs_bit4 : Bool
  cs_bit5 : Bool
  cstopb : Bool
  parenb : Bool
  parodd : Bool
  cmspar : Bool
  crtscts : Bool
  hupcl : Bool
deriving DecidableEq, Repr

/-- termios `c_lflag` register: flags the crate clears, plus `noflsh`
(untouched). -/
structure LocalFlags where
  icanon : Bool
  echo : Bool
  echoe : Bool
  echok : Bool
  echonl : Bool
  isig : Bool
  iexten : Bool
  echoctl : Bool
  echoke : Bool
  noflsh : Bool
deriving DecidableEq, Repr

/-- termios `c_oflag` register: flags the crate clears, plus `olcuc`
(untouched). -/
structure OutputFlags where
  opost : Bool
  onlcr : Bool
  ocrnl : Bool
  olcuc : Bool
deriving DecidableEq, Repr

/-- termios `c_iflag` register: flags the crate touches, plus `brkint`
(untouched). -/
structure InputFlags where
  inlcr : Bool
  igncr : Bool
  icrnl : Bool
  ignbrk : Bool
  parmrk : Bool
  inpck : Bool
  istrip : Bool
  ixon : Bool
  ixoff : Bool
  ixany : Bool
  brkint : Bool
deriving DecidableEq, Repr

/-- The termios attribute block (`nix::sys::termios::Termios`): the four
flag registers, the input/output speeds set by `cfsetispeed`/`cfsetospeed`,
and the `VMIN`/`VTIME` control characters (each a `u8` cell of
`control_chars`). -/
structure Termios where
  control_flags : ControlFlags
  local_flags : LocalFlags
  output_flags : OutputFlags
  input_flags : InputFlags
  ispeed : BaudRate
  ospeed : BaudRate
  vmin : Nat
  vtime : Nat
deriving DecidableEq, Repr

/-! ## POSIX `TTYPort::reconfigure_port` (src/posix/mod.rs lines 54-186)

The function is embedded as a pure state transformer on the termios block:
the `tcgetattr` result is the `orig_attr` input, and on success the value
committed by `tcsetattr(fd, TCSANOW, &orig_attr)` is returned (it becomes
the device's new attribute block).  The leading `flock(fd, Unlock)` and the
`tcgetattr`/`tcsetattr`/`cfsetispeed`/`cfsetospeed` calls are modelled as
succeeding.  Each section of the source function is one step definition,
in source order. -/

/-- Lines 65-80: force raw mode — set CLOCAL|CREAD, clear the canonical /
echo / signal local flags (including the ECHOCTL, ECHOKE loop), clear
OPOST|ONLCR|OCRNL, clear INLCR|IGNCR|ICRNL|IGNBRK, and clear PARMRK when
set. -/
def rawMode (a : Termios) : Termios :=
  let cf := { a.control_flags with clocal := true, cread := true }
  let lf := { a.local_flags with
    icanon := false, echo := false, echoe := false, echok := false,
    echonl := false, isig := false, iexten := false,
    echoctl := false, echoke := false }
  let ofl := { a.output_flags with opost := false, onlcr := false, ocrnl := false }
  let ifl := { a.input_flags with
    inlcr := false, igncr := false, icrnl := false, ignbrk := false }
  let ifl := if ifl.parmrk then { ifl with parmrk := false } else ifl
  { a with control_flags := cf, local_flags := lf, output_flags := ofl,
           input_flags := ifl }

/-- Lines 81-120: look `baud_rate` up in the Linux table; on a hit apply
`cfsetispeed` and `cfsetospeed` with the native constant, otherwise return
the `LibraryError` of the fall-through match arm. -/
def setBaudStep (baud_rate : Nat) (a : Termios) : Except SerialError Termios :=
  match baudFromU32 baud_rate with
  | some baud => .ok { a with ispeed := baud, ospeed := baud }
  | none => .error (.LibraryError
      ("Baud rate " ++ toString baud_rate ++ " is unsupported on NIX"))

/-- Lines 122-127: `control_flags |= CS5/CS6/CS7/CS8`.  On Linux CS5 is the
empty bit pattern, CS6 is CSIZE bit 4, CS7 is CSIZE bit 5, CS8 is both;
the source ORs without clearing CSIZE first. -/
def byteSizeStep (b : ByteSize) (a : Termios) : Termios :=
  match b with
  | .Five => a
  | .Six => { a with control_flags := { a.control_flags with cs_bit4 := true } }
  | .Seven => { a with control_flags := { a.control_flags with cs_bit5 := true } }
  | .Eight => { a with control_flags :=
      { a.control_flags with cs_bit4 := true, cs_bit5 := true } }

/-- Lines 129-133: stop bits — clear/set CSTOPB, reject `OnePointFive`. -/
def stopBitsStep (sb : StopBits) (a : Termios) : Except SerialError Termios :=
  match sb with
  | .One => .ok { a with control_flags := { a.control_flags with cstopb := false } }
  | .Two => .ok { a with control_flags := { a.control_flags with cstopb := true } }
  | .OnePointFive => .error (.LibraryError "1.5 stop bits is unsupported on NIX")

/-- Lines 135-141: clear INPCK|ISTRIP and (not macOS) clear CMSPAR. -/
def parityPrep (a : Termios) : Termios :=
  let ifl := { a.input_flags with inpck := false, istrip := false }
  let cf := { a.control_flags with cmspar := false }
  { a with input_flags := ifl, control_flags := cf }

/-- Lines 143-152: PARENB/PARODD from the parity setting. -/
def parityStep (p : Parity) (a : Termios) : Termios :=
  match p with
  | .None => { a with control_flags :=
      { a.control_flags with parenb := false, parodd := false } }
  | .Even => { a with control_flags :=
      { a.control_flags with parodd := false, parenb := true } }
  | .Odd => { a with control_flags :=
      { a.control_flags with parenb := true, parodd := true } }

/-- Lines 154-168: flow control.  `None` and `DsrDtr` share one match arm
(DSR/DTR is not supported on UNIX, so no flow control is used in that
case); `XonXoff` sets IXON|IXOFF; `RtsCts` sets CRTSCTS. -/
def flowControlStep (fc : FlowControl) (a : Termios) : Termios :=
  match fc with
  | .None | .DsrDtr =>
    { a with
      input_flags := { a.input_flags with ixon := false, ixoff := false, ixany := false },
      control_flags := { a.control_flags with crtscts := false } }
  | .XonXoff =>
    { a with
      input_flags := { a.input_flags with ixon := true, ixoff := true },
      control_flags := { a.control_flags with crtscts := false } }
  | .RtsCts =>
    { a with
      input_flags := { a.input_flags with ixon := false, ixoff := false, ixany := false },
      control_flags := { a.control_flags with crtscts := true } }

/-- Lines 170-178: bounds-check and store VMIN and then VTIME into the
byte-sized control-character cells. -/
def vminVtimeStep (vmin vtime : Nat) (a : Termios) : Except SerialError Termios :=
  if vmin > 255 then
    .error (.LibraryError ("VMIN of " ++ toString vmin ++ " is unsupported"))
  else
    let a := { a with vmin := vmin }
    if vtime > 255 then
      .error (.LibraryError ("VTIME of " ++ toString vtime ++ " is unsupported"))
    else
      .ok { a with vtime := vtime }

/-- Source `TTYPort::reconfigure_port` (src/posix/mod.rs lines 54-186), Linux
configuration: `vmin`/`vtime` are computed up front from
`inter_byte_timeout` (`vmin = 1; vtime = timeout*10` when a timeout is
set, both 0 otherwise), then the sections run in source order on the
attributes read by `tcgetattr`. -/
def TTYPort.reconfigure_port (s : SerialPortSettings) (orig_attr : Termios) :
    Except SerialError Termios := do
  let vmin : Nat := if s.inter_byte_timeout.isSome then 1 else 0
  let vtime : Nat :=
    match s.inter_byte_timeout with
    | some timeout => timeout * 10
    | none => 0
  let a := rawMode orig_attr
  let a ← setBaudStep s.baud_rate a
  let a := byteSizeStep s.byte_size a
  let a ← stopBitsStep s.stop_bits a
  let a := parityStep s.parity (parityPrep a)
  let a := flowControlStep s.flow_control a
  vminVtimeStep vmin vtime a

/-! ## Windows backend: DCB / COMMTIMEOUTS model (src/windows/mod.rs) -/

/-- winapi constants used by `COMPort::reconfigure_port` and the I/O path. -/
def NOPARITY : Nat := 0
/-- winapi `ODDPARITY`. -/
def ODDPARITY : Nat := 1
/-- winapi `EVENPARITY`. -/
def EVENPARITY : Nat := 2
/-- winapi `ONESTOPBIT`. -/
def ONESTOPBIT : Nat := 0
/-- winapi `ONE5STOPBITS`. -/
def ONE5STOPBITS : Nat := 1
/-- winapi `TWOSTOPBITS`. -/
def TWOSTOPBITS : Nat := 2
/-- winapi `RTS_CONTROL_DISABLE`. -/
def RTS_CONTROL_DISABLE : Nat := 0
/-- winapi `RTS_CONTROL_HANDSHAKE`. -/
def RTS_CONTROL_HANDSHAKE : Nat := 2
/-- winapi `DTR_CONTROL_DISABLE`. -/
def DTR_CONTROL_DISABLE : Nat := 0
/-- winapi `DTR_CONTROL_HANDSHAKE`. -/
def DTR_CONTROL_HANDSHAKE : Nat := 2
/-- winapi `MAXDWORD` (the "return immediately" sentinel interval). -/
def MAXDWORD : Nat := 4294967295
/-- winapi `ERROR_SUCCESS`. -/
def ERROR_SUCCESS : Nat := 0
/-- winapi `ERROR_IO_PENDING`. -/
def ERROR_IO_PENDING : Nat := 997
/-- winapi `ERROR_OPERATION_ABORTED`. -/
def ERROR_OPERATION_ABORTED : Nat := 995
/-- winapi `ERROR_INVALID_USER_BUFFER`. -/
def ERROR_INVALID_USER_BUFFER : Nat := 1784
/-- winapi `ERROR_NOT_ENOUGH_MEMORY`. -/
def ERROR_NOT_ENOUGH_MEMORY : Nat := 8
/-- Source `XON` constant, src/lib.rs. -/
def XON : Nat := 17
/-- Source `XOFF` constant, src/lib.rs. -/
def XOFF : Nat := 19
/-- Source `u32` narrowing cast (`x as u32` on a `u128` value). -/
def u32cast (n : Nat) : Nat := n % 4294967296

/-- The DCB fields `COMPort::reconfigure_port` assigns, plus
`fTXContinueOnXoff` as a representative field carried through unchanged
from `GetCommState`. -/
structure DCB where
  BaudRate : Nat
  ByteSize : Nat
  Parity : Nat
  fParity : Nat
  StopBits : Nat
  fBinary : Nat
  fRtsControl : Nat
  fOutxCtsFlow : Nat
  fDtrControl : Nat
  fOutxDsrFlow : Nat
  fOutX : Nat
  fInX : Nat
  fNull : Nat
  fErrorChar : Nat
  fAbortOnError : Nat
  XonChar : Nat
  XoffChar : Nat
  fTXContinueOnXoff : Nat
deriving DecidableEq, Repr

/-- winapi `COMMTIMEOUTS`. -/
structure COMMTIMEOUTS where
  ReadIntervalTimeout : Nat
  ReadTotalTimeoutMultiplier : Nat
  ReadTotalTimeoutConstant : Nat
  WriteTotalTimeoutMultiplier : Nat
  WriteTotalTimeoutConstant : Nat
deriving DecidableEq, Repr

/-- Source `std::mem::zeroed::<COMMTIMEOUTS>()`. -/
def COMMTIMEOUTS.zeroed : COMMTIMEOUTS :=
  { ReadIntervalTimeout := 0
    ReadTotalTimeoutMultiplier := 0
    ReadTotalTimeoutConstant := 0
    WriteTotalTimeoutMultiplier := 0
    WriteTotalTimeoutConstant := 0 }

/-- The native communications-device state touched by
`COMPort::reconfigure_port`: the DCB (read by `GetCommState`, written by
`SetCommState`), the COMMTIMEOUTS written by `SetCommTimeouts`, and the
event mask written by `SetCommMask`. -/
structure ComDeviceState where
  dcb : DCB
  timeouts : COMMTIMEOUTS
  commMask : Nat
deriving DecidableEq, Repr

/-- Lines 141-162 of src/windows/mod.rs: build the COMMTIMEOUTS block from
the settings, starting from a zeroed struct.  A zero `read_timeout` sets
`ReadIntervalTimeout = MAXDWORD`; a non-zero one sets
`ReadTotalTimeoutConstant = max(timeout as u32, 1)` and, when an
`inter_byte_timeout` is also present, `ReadIntervalTimeout =
max(inter_byte_timeout as u32, 1)`.  A zero `write_timeout` sets
`WriteTotalTimeoutConstant = MAXDWORD`, a non-zero one
`max(timeout as u32, 1)`. -/
def buildCommTimeouts (s : SerialPortSettings) : COMMTIMEOUTS :=
  let timeouts := COMMTIMEOUTS.zeroed
  let timeouts :=
    match s.read_timeout with
    | some timeout =>
      let timeouts :=
        if timeout = 0 then
          { timeouts with ReadIntervalTimeout := MAXDWORD }
        else
          { timeouts with ReadTotalTimeoutConstant := max (u32cast timeout) 1 }
      if timeout ≠ 0 ∧ s.inter_byte_timeout.isSome then
        { timeouts with
          ReadIntervalTimeout := max (u32cast (s.inter_byte_timeout.getD 0)) 1 }
      else timeouts
    | none => timeouts
  match s.write_timeout with
  | some timeout =>
    if timeout = 0 then
      { timeouts with WriteTotalTimeoutConstant := MAXDWORD }
    else
      { timeouts with WriteTotalTimeoutConstant := max (u32cast timeout) 1 }
  | none => timeouts

/-- Lines 166-222 of src/windows/mod.rs: the DCB assignments, applied to
the DCB read back by `GetCommState`. -/
def buildDcb (s : SerialPortSettings) (dcb : DCB) : DCB :=
  let dcb := { dcb with BaudRate := s.baud_rate }
  let dcb := { dcb with ByteSize :=
    match s.byte_size with
    | .Five => 5
    | .Six => 6
    | .Seven => 7
    | .Eight => 8 }
  let dcb :=
    match s.parity with
    | .None => { dcb with Parity := NOPARITY, fParity := 0 }
    | .Even => { dcb with Parity := EVENPARITY, fParity := 1 }
    | .Odd => { dcb with Parity := ODDPARITY, fParity := 1 }
  let dcb := { dcb with StopBits :=
    match s.stop_bits with
    | .One => ONESTOPBIT
    | .OnePointFive => ONE5STOPBITS
    | .Two => TWOSTOPBITS }
  let dcb := { dcb with fBinary := 1 }
  let dcb :=
    if s.flow_control = FlowControl.RtsCts then
      { dcb with fRtsControl := RTS_CONTROL_HANDSHAKE }
    else
      { dcb with fRtsControl := RTS_CONTROL_DISABLE }
  let dcb := { dcb with fOutxCtsFlow :=
    if s.flow_control = FlowControl.RtsCts then 1 else 0 }
  let dcb :=
    if s.flow_control = FlowControl.DsrDtr then
      { dcb with fDtrControl := DTR_CONTROL_HANDSHAKE }
    else
      { dcb with fDtrControl := DTR_CONTROL_DISABLE }
  let dcb := { dcb with fOutxDsrFlow :=
    if s.flow_control = FlowControl.DsrDtr then 1 else 0 }
  let dcb := { dcb with fOutX :=
    if s.flow_control = FlowControl.XonXoff then 1 else 0 }
  let dcb := { dcb with fInX :=
    if s.flow_control = FlowControl.XonXoff then 1 else 0 }
  let dcb := { dcb with fNull := 0, fErrorChar := 0, fAbortOnError := 0 }
  { dcb with XonChar := XON, XoffChar := XOFF }

/-- Source `COMPort::reconfigure_port` (src/windows/mod.rs lines 139-225):
`SetCommTimeouts` with the computed COMMTIMEOUTS, `SetCommMask(handle,
0x0080)`, `GetCommState` into a DCB, the field assignments, and
`SetCommState`.  The native set/get calls are modelled as succeeding, so
the result is the updated device state. -/
def COMPort.reconfigure_port (s : SerialPortSettings) (dev : ComDeviceState) :
    Except SerialError ComDeviceState :=
  let timeouts := buildCommTimeouts s
  let dcb := buildDcb s dev.dcb
  .ok { dcb := dcb, timeouts := timeouts, commMask := 128 }

/-! ## POSIX timed I/O: `wait_fd` and the `Read`/`Write` impls
(src/posix/mod.rs lines 289-366)

`poll`/`ppoll` readiness is environment behaviour, so the outcome of the
one poll call inside `wait_fd` is an explicit oracle value: either the
call itself failed, or it returned a number of ready descriptors together
with the `revents` bits of the single polled descriptor (`None` models
`PollFd::revents()` returning `None` on unknown bits). -/

/-- Linux `POLLIN` bit. -/
def POLLIN : Nat := 1
/-- Linux `POLLOUT` bit. -/
def POLLOUT : Nat := 4
/-- Linux `POLLHUP` bit. -/
def POLLHUP : Nat := 16
/-- Linux `POLLNVAL` bit. -/
def POLLNVAL : Nat := 32

/-- Outcome of the `ppoll` call in `wait_fd`. -/
inductive PollOutcome
  | pollFailed (desc : String)
  | returned (numReady : Nat) (revents : Option Nat)
deriving DecidableEq, Repr

/-- Source `wait_fd` (src/posix/mod.rs lines 325-366).  `events` is the requested
event mask (`POLLIN` for reads, `POLLOUT` for writes) and `timeout` the
configured wait in milliseconds (it parameterizes the real kernel wait;
the wait's result is the `outcome` oracle).  A failed poll call maps to a
`TimedOut`-kind error; fewer/more than exactly one ready descriptor maps
to the `TimedOut` "Operation timed out" error; `revents` equal to the
requested mask is success; `revents` containing `POLLHUP` or `POLLNVAL`
maps to a `BrokenPipe` error with the `EPIPE` description; anything else
falls through to an `EIO`-description error. -/
def wait_fd (events : Nat) (timeout : Nat) (outcome : PollOutcome) :
    Except StdIoError Unit :=
  match outcome with
  | .pollFailed e =>
    .error { kind := .TimedOut, msg := "Operation failed " ++ e }
  | .returned wait revents =>
    if wait ≠ 1 then
      .error { kind := .TimedOut, msg := "Operation timed out" }
    else
      match revents with
      | some e =>
        if e = events then .ok ()
        else if e &&& POLLHUP ≠ 0 ∨ e &&& POLLNVAL ≠ 0 then
          .error { kind := .BrokenPipe, msg := "Broken pipe" }
        else
          .error { kind := .Other, msg := "Input/output error" }
      | none => .error { kind := .Other, msg := "Input/output error" }

/-- Result of the final `nix::unistd::read`/`nix::unistd::write` syscall
wrapper: a byte count or an errno description. -/
inductive SyscallResult
  | ok (count : Nat)
  | err (desc : String)
deriving DecidableEq, Repr

/-- Source `impl std::io::Read for TTYPort` (src/posix/mod.rs lines 289-298).
There is no zero-length special case: when a `read_timeout` is configured
the readiness wait runs first (on `POLLIN`, with the poll outcome given by
the oracle), then `nix::unistd::read(fd, buf)` runs on the buffer of
length `bufLen` with outcome `osRead`. -/
def TTYPort.read (s : SerialPortSettings) (bufLen : Nat)
    (pollOutcome : PollOutcome) (osRead : SyscallResult) :
    Except StdIoError Nat := do
  let _ := bufLen
  match s.read_timeout with
  | some timeout => wait_fd POLLIN timeout pollOutcome
  | none => pure ()
  match osRead with
  | .ok n => .ok n
  | .err e => .error { kind := .Other, msg := "Read failed " ++ e }

/-- Source `impl std::io::Write for TTYPort` (src/posix/mod.rs lines 300-308).
Like `read`: optional `POLLOUT` readiness wait, then
`nix::unistd::write`. -/
def TTYPort.write (s : SerialPortSettings) (bufLen : Nat)
    (pollOutcome : PollOutcome) (osWrite : SyscallResult) :
    Except StdIoError Nat := do
  let _ := bufLen
  match s.write_timeout with
  | some timeout => wait_fd POLLOUT timeout pollOutcome
  | none => pure ()
  match osWrite with
  | .ok n => .ok n
  | .err e => .error { kind := .Other, msg := "Write failed " ++ e }

/-! ## Windows overlapped I/O: the `Read`/`Write` impls
(src/windows/mod.rs lines 341-454) -/

/-- A native error observation: a `GetLastError` code together with the
description `get_win_error` obtains for it via `FormatMessageW`. -/
structure WinError where
  code : Nat
  desc : String
deriving DecidableEq, Repr

/-- Source `get_win_error` (src/windows/error.rs): wraps the observed code and
description as `SerialError::OsError`. -/
def get_win_error (e : WinError) : SerialError :=
  .OsError e.code e.desc

/-- Source `impl From<SerialError> for std::io::Error` (src/lib.rs lines
287-295): `IoError` unwraps, `OsError` and `LibraryError` become
`ErrorKind::Other` errors carrying the description. -/
def SerialError.toStdIoError : SerialError → StdIoError
  | .IoError i => i
  | .OsError _ desc => { kind := .Other, msg := desc }
  | .LibraryError e => { kind := .Other, msg := e }

/-- Source `VALID_PENDING_ERRORS` (src/windows/mod.rs line 341). -/
def VALID_PENDING_ERRORS : List Nat := [ERROR_SUCCESS, ERROR_IO_PENDING]

/-- Oracle for the overlapped-read interaction of `COMPort::read`: the
results of `ReadFile`, the `GetLastError` observations at each query
point, and the `GetOverlappedResult` completion. -/
structure WinReadEnv where
  noData : WinError
  readFileStatus : Nat
  readFileCount : Nat
  afterReadFile : WinError
  overlappedOk : Nat
  overlappedCount : Nat
  afterOverlapped : WinError
deriving DecidableEq, Repr

/-- Source `impl std::io::Read for COMPort` (src/windows/mod.rs lines 402-453).
A zero-length buffer returns `Ok(0)` before any native call.  Otherwise
`ClearCommError` reports `cbInQue` queued input bytes; with no
`read_timeout` (or the port set non-blocking) only
`min(cbInQue, buf.len())` bytes are requested, else the full buffer; a
zero request count returns the error built from `GetLastError`; otherwise
`ReadFile` and, when needed, `GetOverlappedResult` complete the read, an
`ERROR_OPERATION_ABORTED` completion yielding the partial count. -/
def COMPort.read (s : SerialPortSettings) (bufLen : Nat) (cbInQue : Nat)
    (env : WinReadEnv) : Except StdIoError Nat :=
  if bufLen = 0 then
    .ok 0
  else
    let to_read :=
      if s.read_timeout.isNone || !s.blocking then min cbInQue bufLen
      else bufLen
    if to_read = 0 then
      .error (get_win_error env.noData).toStdIoError
    else
      let read_count := env.readFileCount
      if read_count = to_read then
        .ok to_read
      else if env.readFileStatus == 0
          && !(VALID_PENDING_ERRORS.contains env.afterReadFile.code) then
        .error (get_win_error env.afterReadFile).toStdIoError
      else
        let read_count := env.overlappedCount
        if env.overlappedOk = 0 then
          if env.afterOverlapped.code ≠ ERROR_OPERATION_ABORTED then
            .error (get_win_error env.afterOverlapped).toStdIoError
          else
            .ok read_count
        else
          .ok read_count

/-- Oracle for the overlapped-write interaction of `COMPort::write`. -/
structure WinWriteEnv where
  writeFileStatus : Nat
  writeFileCount : Nat
  afterWriteFile : WinError
  overlappedCount : Nat
  afterOverlapped : WinError
deriving DecidableEq, Repr

/-- Source `impl std::io::Write for COMPort` (src/windows/mod.rs lines 343-392).
A zero-length buffer returns `Ok(0)` before any native call.  With a
`write_timeout` configured, a failed-and-not-pending `WriteFile` is an
`Interrupted` error, then `GetOverlappedResult` blocks and an
`ERROR_OPERATION_ABORTED` observation is an `Interrupted` error, any other
outcome returns the completed count.  Without a timeout, a successful or
pending issue returns the count `WriteFile` reported, and other errors map
through the fixed kind table. -/
def COMPort.write (s : SerialPortSettings) (bufLen : Nat)
    (env : WinWriteEnv) : Except StdIoError Nat :=
  if bufLen = 0 then
    .ok 0
  else
    let written := env.writeFileCount
    if s.write_timeout.isSome then
      if env.writeFileStatus == 0
          && !(VALID_PENDING_ERRORS.contains env.afterWriteFile.code) then
        .error { kind := .Interrupted, msg := env.afterWriteFile.desc }
      else
        let written := env.overlappedCount
        if env.afterOverlapped.code = ERROR_OPERATION_ABORTED then
          .error { kind := .Interrupted, msg := env.afterOverlapped.desc }
        else
          .ok written
    else
      let error :=
        if env.writeFileStatus ≠ 0 then ERROR_SUCCESS
        else env.afterWriteFile.code
      if error = ERROR_SUCCESS ∨ error = ERROR_IO_PENDING then
        .ok written
      else
        let e_type : ErrorKind :=
          if error = ERROR_INVALID_USER_BUFFER then .InvalidData
          else if error = ERROR_NOT_ENOUGH_MEMORY then .OutOfMemory
          else .Interrupted
        .error { kind := e_type, msg := env.afterWriteFile.desc }

/-! ## Buffer clearing (src/posix/mod.rs lines 277-285) -/

/-- The tty driver's pending byte queues. -/
structure TtyQueueState where
  inq : List Nat
  outq : List Nat
deriving DecidableEq, Repr

/-- Source `nix::sys::termios::FlushArg` values used by the crate. -/
inductive FlushArg
  | TCIFLUSH
  | TCOFLUSH
  | TCIOFLUSH
deriving DecidableEq, Repr

/-- POSIX `tcflush` semantics (environment model): `TCIFLUSH` discards
untransmitted input, `TCOFLUSH` discards unwritten output, `TCIOFLUSH`
discards both. -/
def tcflush (arg : FlushArg) (st : TtyQueueState) : TtyQueueState :=
  match arg with
  | .TCIFLUSH => { st with inq := [] }
  | .TCOFLUSH => { st with outq := [] }
  | .TCIOFLUSH => { inq := [], outq := [] }

/-- Source `TTYPort::clear_input_buffer` (src/posix/mod.rs lines 277-280):
`tcflush(fd, TCIFLUSH)`. -/
def TTYPort.clear_input_buffer (st : TtyQueueState) : TtyQueueState :=
  tcflush .TCIFLUSH st

/-- Source `TTYPort::clear_output_buffer` (src/posix/mod.rs lines 282-285):
`tcflush(fd, TCIOFLUSH)`. -/
def TTYPort.clear_output_buffer (st : TtyQueueState) : TtyQueueState :=
  tcflush .TCIOFLUSH st

/-! ## Handle lifecycle: explicit close versus drop glue
(src/posix/mod.rs lines 188-193 and 316-322; src/windows/mod.rs lines
227-234 and 456-464)

Releases of native resources are modelled as an explicit trace. -/

/-- One release of a native OS resource. -/
inductive OsRelease
  | closeFd (fd : Nat)
  | closeHandle (h : Nat)
deriving DecidableEq, Repr

/-- Body of `fn close(self)` for `TTYPort`: `unsafe { close(self.fd) }`. -/
def TTYPort.closeBody (fd : Nat) : List OsRelease := [.closeFd fd]

/-- Source `impl Drop for TTYPort`: `unsafe { close(self.fd) }`. -/
def TTYPort.dropGlue (fd : Nat) : List OsRelease := [.closeFd fd]

/-- Releases performed by one call to the explicit `TTYPort::close`.
Rust drop semantics: `close` takes `self` by value and its body neither
forgets `self` nor moves it out, so when the body returns, `self` is
dropped and `Drop::drop` runs on it — the trace is the body's releases
followed by the drop glue's. -/
def TTYPort.closeCalls (fd : Nat) : List OsRelease :=
  TTYPort.closeBody fd ++ TTYPort.dropGlue fd

/-- Body of `fn close(self)` for `COMPort`: `CloseHandle` on the read
event, the write event, and the port handle. -/
def COMPort.closeBody (readEvent writeEvent handle : Nat) : List OsRelease :=
  [.closeHandle readEvent, .closeHandle writeEvent, .closeHandle handle]

/-- Source `impl Drop for COMPort`: the same three `CloseHandle` calls. -/
def COMPort.dropGlue (readEvent writeEvent handle : Nat) : List OsRelease :=
  [.closeHandle readEvent, .closeHandle writeEvent, .closeHandle handle]

/-- Releases performed by one call to the explicit `COMPort::close`
(body, then drop glue on the consumed value, as for `TTYPort`). -/
def COMPort.closeCalls (readEvent writeEvent handle : Nat) : List OsRelease :=
  COMPort.closeBody readEvent writeEvent handle ++
    COMPort.dropGlue readEvent writeEvent handle

/-! ## Helper projections and concrete sample values -/

/-- Whether a result is a `SerialError::LibraryError`. -/
def isLibraryError {α : Type} : Except SerialError α → Bool
  | .error (SerialError.LibraryError _) => true
  | _ => false

/-- The `VMIN` cell of a successful POSIX reconfiguration. -/
def vminOf (r : Except SerialError Termios) : Option Nat :=
  match r with
  | .ok a => some a.vmin
  | .error _ => none

/-- The `VTIME` cell of a successful POSIX reconfiguration. -/
def vtimeOf (r : Except SerialError Termios) : Option Nat :=
  match r with
  | .ok a => some a.vtime
  | .error _ => none

/-- The input/output speeds of a successful POSIX reconfiguration. -/
def speedsOf (r : Except SerialError Termios) : Option (BaudRate × BaudRate) :=
  match r with
  | .ok a => some (a.ispeed, a.ospeed)
  | .error _ => none

/-- The DCB stop-bit encoding of a successful Windows reconfiguration. -/
def stopBitsOf (r : Except SerialError ComDeviceState) : Option Nat :=
  match r with
  | .ok dev => some dev.dcb.StopBits
  | .error _ => none

/-- A concrete termios block playing the role of the `tcgetattr` result in
concrete evaluations: a cooked-mode block with echo and translation flags
set, so that reconfiguration visibly rewrites it. -/
def bootTermios : Termios :=
  { control_flags :=
      { clocal := false, cread := false, cs_bit4 := false, cs_bit5 := false,
        cstopb := false, parenb := false, parodd := false, cmspar := false,
        crtscts := false, hupcl := true }
    local_flags :=
      { icanon := true, echo := true, echoe := true, echok := true,
        echonl := false, isig := true, iexten := true, echoctl := true,
        echoke := true, noflsh := false }
    output_flags := { opost := true, onlcr := true, ocrnl := false, olcuc := false }
    input_flags :=
      { inlcr := false, igncr := false, icrnl := true, ignbrk := false,
        parmrk := true, inpck := false, istrip := false, ixon := true,
        ixoff := false, ixany := false, brkint := true }
    ispeed := BaudRate.B9600
    ospeed := BaudRate.B9600
    vmin := 0
    vtime := 0 }

/-- A concrete Windows device state for concrete evaluations. -/
def bootDev : ComDeviceState :=
  { dcb :=
      { BaudRate := 9600, ByteSize := 8, Parity := 0, fParity := 0,
        StopBits := 0, fBinary := 0, fRtsControl := 0, fOutxCtsFlow := 0,
        fDtrControl := 0, fOutxDsrFlow := 0, fOutX := 0, fInX := 0,
        fNull := 1, fErrorChar := 0, fAbortOnError := 1, XonChar := 0,
        XoffChar := 0, fTXContinueOnXoff := 1 }
    timeouts := COMMTIMEOUTS.zeroed
    commMask := 0 }

/-- The termios block produced by applying the default settings to
`bootTermios`. -/
def demoReconfigured : Termios :=
  (TTYPort.reconfigure_port SerialPortSettings.default bootTermios).toOption.getD
    bootTermios

/-- The device state produced by applying the default settings to
`bootDev`. -/
def demoDevReconfigured : ComDeviceState :=
  (COMPort.reconfigure_port SerialPortSettings.default bootDev).toOption.getD
    bootDev

/-- The termios block produced by applying the DSR/DTR-flow settings to
`bootTermios`. -/
def demoC7Reconfigured : Termios :=
  (TTYPort.reconfigure_port
      { SerialPortSettings.default with flow_control := FlowControl.DsrDtr }
      bootTermios).toOption.getD bootTermios

/-- A concrete oracle for Windows reads: `GetLastError` observes code 87
(`ERROR_INVALID_PARAMETER`) with its system description, `ReadFile`
reports no bytes and success, `GetOverlappedResult` completes with 0. -/
def demoReadEnv : WinReadEnv :=
  { noData := { code := 87, desc := "The parameter is incorrect." }
    readFileStatus := 1
    readFileCount := 0
    afterReadFile := { code := 0, desc := "The operation completed successfully." }
    overlappedOk := 1
    overlappedCount := 0
    afterOverlapped := { code := 0, desc := "The operation completed successfully." } }

/-- A concrete oracle for Windows writes. -/
def demoWriteEnv : WinWriteEnv :=
  { writeFileStatus := 1
    writeFileCount := 0
    afterWriteFile := { code := 0, desc := "The operation completed successfully." }
    overlappedCount := 0
    afterOverlapped := { code := 0, desc := "The operation completed successfully." } }

/-! ## Helper lemmas -/

/-- The guarded PARMRK clear in `rawMode` equals the unconditional
clear. -/
theorem parmrk_guard_eq (b : InputFlags) :
    (if b.parmrk then { b with parmrk := false } else b) =
      { b with parmrk := false } := by
  obtain ⟨inlcr, igncr, icrnl, ignbrk, parmrk, inpck, istrip, ixon, ixoff, ixany, brkint⟩ := b
  cases parmrk <;> rfl

/-- Every hit in the Linux baud table carries exactly the requested
numeric rate. -/
theorem baudFromU32_rate (n : Nat) (b : BaudRate) (h : baudFromU32 n = some b) :
    BaudRate.rate b = n := by
  unfold baudFromU32 at h
  split at h <;>
    first
    | (injection h with h; cases h; rfl)
    | exact Option.noConfusion h

/-- Bind on an `Except` error short-circuits. -/
theorem except_error_bind {ε α β : Type} (e : ε) (f : α → Except ε β) :
    (Except.error e >>= f) = Except.error e := rfl

/-- Bind on an `Except` success continues. -/
theorem except_ok_bind {ε α β : Type} (a : α) (f : α → Except ε β) :
    (Except.ok a >>= f) = f a := rfl

/-- The `None` and `DsrDtr` flow-control arms of `flowControlStep` are one
shared match arm. -/
theorem flowControlStep_dsrdtr_eq_none :
    flowControlStep FlowControl.DsrDtr = flowControlStep FlowControl.None := by
  funext a
  rfl

/-- Decompose a successful `Except` bind. -/
theorem except_bind_ok {ε α β : Type} {m : Except ε α} {f : α → Except ε β} {b : β}
    (h : (m >>= f) = .ok b) : ∃ a, m = .ok a ∧ f a = .ok b := by
  cases m with
  | error e => rw [except_error_bind] at h; exact Except.noConfusion h
  | ok a => exact ⟨a, rfl, h⟩

/-- A successful baud step means the table hit and the speeds were set to
the native constant. -/
theorem setBaudStep_ok {n : Nat} {x y : Termios} (h : setBaudStep n x = .ok y) :
    ∃ b, baudFromU32 n = some b ∧ y = { x with ispeed := b, ospeed := b } := by
  unfold setBaudStep at h
  cases hb : baudFromU32 n with
  | none => rw [hb] at h; exact Except.noConfusion h
  | some b =>
    rw [hb] at h
    injection h with h
    exact ⟨b, rfl, h.symm⟩

/-- A successful stop-bits step is either the `One` or `Two` arm. -/
theorem stopBitsStep_ok {sb : StopBits} {x y : Termios}
    (h : stopBitsStep sb x = .ok y) :
    (sb = StopBits.One ∧
      y = { x with control_flags := { x.control_flags with cstopb := false } }) ∨
    (sb = StopBits.Two ∧
      y = { x with control_flags := { x.control_flags with cstopb := true } }) := by
  cases sb with
  | One => injection h with h; exact Or.inl ⟨rfl, h.symm⟩
  | Two => injection h with h; exact Or.inr ⟨rfl, h.symm⟩
  | OnePointFive => exact Except.noConfusion h

/-- A successful VMIN/VTIME step passed both bounds checks and stored the
two cells. -/
theorem vminVtimeStep_ok {v w : Nat} {x y : Termios}
    (h : vminVtimeStep v w x = .ok y) :
    ¬ v > 255 ∧ ¬ w > 255 ∧ y = { x with vmin := v, vtime := w } := by
  unfold vminVtimeStep at h
  split at h
  next hv => exact Except.noConfusion h
  next hv =>
    split at h
    next hw => exact Except.noConfusion h
    next hw =>
      injection h with h
      exact ⟨hv, hw, h.symm⟩

/-- The Windows DCB assignment pass is idempotent: every field it writes
depends only on the settings, and every field it leaves alone is carried
through unchanged. -/
theorem buildDcb_idem (s : SerialPortSettings) (d : DCB) :
    buildDcb s (buildDcb s d) = buildDcb s d := by
  obtain ⟨br, bs, pa, sb, rt, fc, wt, ibt, bl⟩ := s
  cases bs <;> cases pa <;> cases sb <;> cases fc <;> rfl

/-! ## Claim theorems -/

/-- C9: on the POSIX backend `clear_output_buffer` flushes with
`TCIOFLUSH`, so after it both the output queue and the input queue are
empty — in particular the input queue is not left unchanged. -/
theorem C9_clear_output_flushes_input (st : TtyQueueState) :
    (TTYPort.clear_output_buffer st).inq = [] ∧
      (TTYPort.clear_output_buffer st).outq = [] :=
  ⟨rfl, rfl⟩

/-- C2 (code bug): calling the explicit `close` releases the same native
resources twice, not exactly once — the body of `fn close(self)` releases
them and then the automatic `Drop` of the consumed `self` releases them
again.  Evaluated on a `TTYPort` with descriptor 3 and a `COMPort` with
event handles 5, 6 and port handle 7. -/
theorem C2_close_double_release :
    (TTYPort.closeCalls 3).count (OsRelease.closeFd 3) = 2 ∧
      (COMPort.closeCalls 5 6 7).count (OsRelease.closeHandle 7) = 2 :=
  ⟨rfl, rfl⟩

/-- C10: on the Windows backend, a read into a non-empty buffer with no
`read_timeout` configured (or the port set non-blocking) and an empty
input queue returns the error built from the last OS error code, rather
than `Ok(0)` or blocking. -/
theorem C10_windows_read_empty_queue_errors
    (s : SerialPortSettings) (bufLen : Nat) (env : WinReadEnv)
    (hlen : bufLen ≠ 0) (hnb : s.read_timeout = none ∨ s.blocking = false) :
    COMPort.read s bufLen 0 env =
      .error { kind := ErrorKind.Other, msg := env.noData.desc } := by
  have hcond : (s.read_timeout.isNone || !s.blocking) = true := by
    rcases hnb with h | h <;> simp [h]
  simp [COMPort.read, hlen, hcond, get_win_error, SerialError.toStdIoError]

/-- Witness for C10 at the default settings (no read timeout), buffer
length 1, empty input queue, and the concrete oracle `demoReadEnv`. -/
theorem C10_witness :
    COMPort.read SerialPortSettings.default 1 0 demoReadEnv =
      .error { kind := ErrorKind.Other, msg := "The parameter is incorrect." } :=
  C10_windows_read_empty_queue_errors SerialPortSettings.default 1 demoReadEnv
    (by decide) (Or.inl rfl)

/-- C1 counterexample: the claim fails on the POSIX backend.  With a
`read_timeout` configured, `TTYPort::read` on a zero-length buffer does
not return `Ok(0)` without touching the OS: it first blocks on the
poll readiness wait, and when no readiness event arrives within the
timeout it returns a `TimedOut` error. -/
theorem C1_counterexample :
    TTYPort.read { SerialPortSettings.default with read_timeout := some 100 } 0
        (PollOutcome.returned 0 none) (SyscallResult.ok 0) =
      .error { kind := ErrorKind.TimedOut, msg := "Operation timed out" } ∧
    TTYPort.read { SerialPortSettings.default with read_timeout := some 100 } 0
        (PollOutcome.returned 0 none) (SyscallResult.ok 0) ≠ .ok 0 := by
  refine ⟨rfl, ?_⟩
  intro h
  rw [show TTYPort.read { SerialPortSettings.default with read_timeout := some 100 } 0
        (PollOutcome.returned 0 none) (SyscallResult.ok 0) =
      .error { kind := ErrorKind.TimedOut, msg := "Operation timed out" } from rfl] at h
  exact Except.noConfusion h

/-- C1 amended: the zero-length short-circuit exists on the Windows
backend only — `COMPort::read`/`write` return `Ok(0)` for empty buffers
before any native call — while the POSIX backend has no zero-length
special case: with a `read_timeout` configured, `TTYPort::read` on an
empty buffer still runs the poll readiness wait and fails with a
`TimedOut` error when the wait expires. -/
theorem C1_zero_length (s : SerialPortSettings) (cbInQue : Nat)
    (renv : WinReadEnv) (wenv : WinWriteEnv) (t : Nat) (osRead : SyscallResult)
    (hrt : s.read_timeout = some t) :
    COMPort.read s 0 cbInQue renv = .ok 0 ∧
    COMPort.write s 0 wenv = .ok 0 ∧
    TTYPort.read s 0 (PollOutcome.returned 0 none) osRead =
      .error { kind := ErrorKind.TimedOut, msg := "Operation timed out" } := by
  refine ⟨rfl, rfl, ?_⟩
  simp [TTYPort.read, hrt, wait_fd, except_error_bind]

/-- Witness for C1 at the default settings with a 5 ms read timeout. -/
theorem C1_witness :
    COMPort.read { SerialPortSettings.default with read_timeout := some 5 } 0 0
        demoReadEnv = .ok 0 ∧
    COMPort.write { SerialPortSettings.default with read_timeout := some 5 } 0
        demoWriteEnv = .ok 0 ∧
    TTYPort.read { SerialPortSettings.default with read_timeout := some 5 } 0
        (PollOutcome.returned 0 none) (SyscallResult.ok 0) =
      .error { kind := ErrorKind.TimedOut, msg := "Operation timed out" } :=
  C1_zero_length { SerialPortSettings.default with read_timeout := some 5 } 0
    demoReadEnv demoWriteEnv 5 (SyscallResult.ok 0) rfl

/-- C8: on the POSIX backend with read/write timeouts configured, the
readiness wait's outcome maps as specified: a wait that expires with no
readiness event (poll reports 0 ready descriptors) makes `read`/`write`
fail with a `TimedOut`-kind error, and readiness events containing
`POLLHUP` or `POLLNVAL` make them fail with a `BrokenPipe`-kind error. -/
theorem C8_wait_outcomes (s : SerialPortSettings) (bufLen : Nat)
    (osRead osWrite : SyscallResult) (tr tw : Nat) (re : Nat) (rv : Option Nat)
    (hrt : s.read_timeout = some tr) (hwt : s.write_timeout = some tw)
    (hre : re &&& POLLHUP ≠ 0 ∨ re &&& POLLNVAL ≠ 0) :
    TTYPort.read s bufLen (PollOutcome.returned 0 rv) osRead =
      .error { kind := ErrorKind.TimedOut, msg := "Operation timed out" } ∧
    TTYPort.write s bufLen (PollOutcome.returned 0 rv) osWrite =
      .error { kind := ErrorKind.TimedOut, msg := "Operation timed out" } ∧
    TTYPort.read s bufLen (PollOutcome.returned 1 (some re)) osRead =
      .error { kind := ErrorKind.BrokenPipe, msg := "Broken pipe" } ∧
    TTYPort.write s bufLen (PollOutcome.returned 1 (some re)) osWrite =
      .error { kind := ErrorKind.BrokenPipe, msg := "Broken pipe" } := by
  have hreIn : ¬ re = POLLIN := by
    rcases hre with h | h <;> (intro he; subst he; exact h (by decide))
  have hreOut : ¬ re = POLLOUT := by
    rcases hre with h | h <;> (intro he; subst he; exact h (by decide))
  refine ⟨?_, ?_, ?_, ?_⟩
  · simp [TTYPort.read, hrt, wait_fd, except_error_bind]
  · simp [TTYPort.write, hwt, wait_fd, except_error_bind]
  · simp [TTYPort.read, hrt, wait_fd, hreIn, hre, except_error_bind]
  · simp [TTYPort.write, hwt, wait_fd, hreOut, hre, except_error_bind]

/-- Witness for C8: timeouts of 1 ms, revents equal to `POLLHUP`. -/
theorem C8_witness :
    TTYPort.read
        { SerialPortSettings.default with
            read_timeout := some 1, write_timeout := some 1 } 4
        (PollOutcome.returned 0 none) (SyscallResult.ok 0) =
      .error { kind := ErrorKind.TimedOut, msg := "Operation timed out" } ∧
    TTYPort.write
        { SerialPortSettings.default with
            read_timeout := some 1, write_timeout := some 1 } 4
        (PollOutcome.returned 0 none) (SyscallResult.ok 0) =
      .error { kind := ErrorKind.TimedOut, msg := "Operation timed out" } ∧
    TTYPort.read
        { SerialPortSettings.default with
            read_timeout := some 1, write_timeout := some 1 } 4
        (PollOutcome.returned 1 (some POLLHUP)) (SyscallResult.ok 0) =
      .error { kind := ErrorKind.BrokenPipe, msg := "Broken pipe" } ∧
    TTYPort.write
        { SerialPortSettings.default with
            read_timeout := some 1, write_timeout := some 1 } 4
        (PollOutcome.returned 1 (some POLLHUP)) (SyscallResult.ok 0) =
      .error { kind := ErrorKind.BrokenPipe, msg := "Broken pipe" } :=
  C8_wait_outcomes _ 4 (SyscallResult.ok 0) (SyscallResult.ok 0) 1 1 POLLHUP none
    rfl rfl (Or.inl (by decide))

/-- C4: on the Linux POSIX backend the baud rate is mapped through the
fixed enumeration table: every table hit carries exactly the requested
numeric rate (never a rounded neighbour) and makes the baud-setting step
succeed with that native constant as both the input and the output speed,
while every miss makes `reconfigure_port` fail with the table's
`LibraryError`. -/
theorem C4_baud_table (s : SerialPortSettings) (a : Termios) :
    (∀ b : BaudRate, baudFromU32 s.baud_rate = some b →
      BaudRate.rate b = s.baud_rate ∧
      setBaudStep s.baud_rate (rawMode a) =
        .ok { rawMode a with ispeed := b, ospeed := b }) ∧
    (baudFromU32 s.baud_rate = none →
      TTYPort.reconfigure_port s a =
        .error (SerialError.LibraryError
          ("Baud rate " ++ toString s.baud_rate ++ " is unsupported on NIX"))) := by
  constructor
  · intro b hb
    refine ⟨baudFromU32_rate _ _ hb, ?_⟩
    simp [setBaudStep, hb]
  · intro hb
    simp [TTYPort.reconfigure_port, setBaudStep, hb, except_error_bind]

/-- Witness for C4: 9600 is in the table and maps to `B9600`; 12345 is
absent and reconfiguration fails with the exact `LibraryError`. -/
theorem C4_witness :
    BaudRate.rate BaudRate.B9600 = 9600 ∧
    setBaudStep 9600 (rawMode bootTermios) =
      .ok { rawMode bootTermios with
              ispeed := BaudRate.B9600, ospeed := BaudRate.B9600 } ∧
    TTYPort.reconfigure_port
        { SerialPortSettings.default with baud_rate := 12345 } bootTermios =
      .error (SerialError.LibraryError "Baud rate 12345 is unsupported on NIX") :=
  ⟨((C4_baud_table SerialPortSettings.default bootTermios).1 BaudRate.B9600 rfl).1,
   ((C4_baud_table SerialPortSettings.default bootTermios).1 BaudRate.B9600 rfl).2,
   (C4_baud_table { SerialPortSettings.default with baud_rate := 12345 }
      bootTermios).2 rfl⟩

/-- C5: requesting `stop_bits = OnePointFive` always fails with a
`LibraryError` on the POSIX backend, while on the Windows backend the
stop-bit step always succeeds and encodes it as the native
`ONE5STOPBITS`. -/
theorem C5_one_point_five (s : SerialPortSettings) (a : Termios)
    (dev : ComDeviceState) (h : s.stop_bits = StopBits.OnePointFive) :
    isLibraryError (TTYPort.reconfigure_port s a) = true ∧
    stopBitsOf (COMPort.reconfigure_port s dev) = some ONE5STOPBITS := by
  constructor
  · cases hb : baudFromU32 s.baud_rate with
    | none =>
      simp [TTYPort.reconfigure_port, setBaudStep, hb, except_error_bind,
            isLibraryError]
    | some b =>
      simp [TTYPort.reconfigure_port, setBaudStep, stopBitsStep, hb, h,
            except_error_bind, except_ok_bind, isLibraryError]
  · cases hfc : s.flow_control <;>
      simp [COMPort.reconfigure_port, stopBitsOf, buildDcb, h, hfc, ONE5STOPBITS]

/-- Witness for C5 at the default settings with 1.5 stop bits. -/
theorem C5_witness :
    isLibraryError (TTYPort.reconfigure_port
        { SerialPortSettings.default with stop_bits := StopBits.OnePointFive }
        bootTermios) = true ∧
    stopBitsOf (COMPort.reconfigure_port
        { SerialPortSettings.default with stop_bits := StopBits.OnePointFive }
        bootDev) = some ONE5STOPBITS :=
  C5_one_point_five _ bootTermios bootDev rfl

/-- C3 counterexample: the claim's 25.5-second cap is wrong for this
code.  `reconfigure_port` computes `vtime = inter_byte_timeout * 10`, so
an inter-byte timeout of 26 ms — far below 25500 ms — already exceeds the
255 cap and is rejected with a `LibraryError`. -/
theorem C3_counterexample :
    26 ≤ 25500 ∧
    TTYPort.reconfigure_port
        { SerialPortSettings.default with inter_byte_timeout := some 26 }
        bootTermios =
      .error (SerialError.LibraryError "VTIME of 260 is unsupported") :=
  ⟨by decide, rfl⟩

/-- C3 amended: on the POSIX backend (with a baud rate from the table and
a representable stop-bit count) `reconfigure_port` accepts
`inter_byte_timeout` values up to 25 ms — the code stores
`vmin = 1` and `vtime = timeout*10` into the byte-sized cells — and
returns a `LibraryError` exactly when the computed VTIME value
`timeout*10` exceeds 255, i.e. for every timeout of 26 ms or more; the
computed VMIN is always 0 or 1 and never triggers the error. -/
theorem C3_amended (s : SerialPortSettings) (a : Termios) (t : Nat) (b : BaudRate)
    (hibt : s.inter_byte_timeout = some t)
    (hb : baudFromU32 s.baud_rate = some b)
    (hsb : s.stop_bits ≠ StopBits.OnePointFive) :
    (t ≤ 25 →
      vminOf (TTYPort.reconfigure_port s a) = some 1 ∧
      vtimeOf (TTYPort.reconfigure_port s a) = some (t * 10)) ∧
    (26 ≤ t →
      TTYPort.reconfigure_port s a =
        .error (SerialError.LibraryError
          ("VTIME of " ++ toString (t * 10) ++ " is unsupported"))) := by
  cases hstop : s.stop_bits with
  | OnePointFive => exact absurd hstop hsb
  | One =>
    constructor
    · intro ht
      have hv : ¬ t * 10 > 255 := by omega
      simp [TTYPort.reconfigure_port, setBaudStep, stopBitsStep, hb, hibt, hstop,
            vminVtimeStep, vminOf, vtimeOf, except_ok_bind, hv]
    · intro ht
      have hv : t * 10 > 255 := by omega
      simp [TTYPort.reconfigure_port, setBaudStep, stopBitsStep, hb, hibt, hstop,
            vminVtimeStep, except_ok_bind, hv]
  | Two =>
    constructor
    · intro ht
      have hv : ¬ t * 10 > 255 := by omega
      simp [TTYPort.reconfigure_port, setBaudStep, stopBitsStep, hb, hibt, hstop,
            vminVtimeStep, vminOf, vtimeOf, except_ok_bind, hv]
    · intro ht
      have hv : t * 10 > 255 := by omega
      simp [TTYPort.reconfigure_port, setBaudStep, stopBitsStep, hb, hibt, hstop,
            vminVtimeStep, except_ok_bind, hv]

/-- Witness for C3 at a 10 ms inter-byte timeout: accepted, with VMIN 1
and VTIME 100. -/
theorem C3_witness :
    vminOf (TTYPort.reconfigure_port
        { SerialPortSettings.default with inter_byte_timeout := some 10 }
        bootTermios) = some 1 ∧
    vtimeOf (TTYPort.reconfigure_port
        { SerialPortSettings.default with inter_byte_timeout := some 10 }
        bootTermios) = some 100 :=
  (C3_amended { SerialPortSettings.default with inter_byte_timeout := some 10 }
      bootTermios 10 BaudRate.B9600 rfl rfl (by decide)).1 (by omega)

/-- C7: on the POSIX backend `DsrDtr` flow control is treated exactly as
`None`: reconfiguration computes the identical result (the two settings
share one match arm), and a successful reconfiguration leaves the
software flow-control flags IXON/IXOFF/IXANY and the hardware flag
CRTSCTS all cleared. -/
theorem C7_dsrdtr_as_none (s : SerialPortSettings) (a : Termios)
    (h : s.flow_control = FlowControl.DsrDtr) :
    TTYPort.reconfigure_port s a =
      TTYPort.reconfigure_port { s with flow_control := FlowControl.None } a ∧
    ∀ a', TTYPort.reconfigure_port s a = .ok a' →
      a'.input_flags.ixon = false ∧ a'.input_flags.ixoff = false ∧
        a'.input_flags.ixany = false ∧ a'.control_flags.crtscts = false := by
  obtain ⟨br, bs, pa, sb, rt, fc, wt, ibt, bl⟩ := s
  change fc = FlowControl.DsrDtr at h
  subst h
  constructor
  · rfl
  · intro a' h'
    simp only [TTYPort.reconfigure_port] at h'
    obtain ⟨a1, hb1, h'⟩ := except_bind_ok h'
    obtain ⟨a2, hs2, h'⟩ := except_bind_ok h'
    obtain ⟨hv, hw, ha'⟩ := vminVtimeStep_ok h'
    subst ha'
    exact ⟨rfl, rfl, rfl, rfl⟩

/-- Witness for C7 at the default settings with DSR/DTR flow control. -/
theorem C7_witness :
    TTYPort.reconfigure_port
        { SerialPortSettings.default with flow_control := FlowControl.DsrDtr }
        bootTermios =
      TTYPort.reconfigure_port
        { SerialPortSettings.default with flow_control := FlowControl.None }
        bootTermios ∧
    demoC7Reconfigured.input_flags.ixon = false ∧
      demoC7Reconfigured.input_flags.ixoff = false ∧
      demoC7Reconfigured.input_flags.ixany = false ∧
      demoC7Reconfigured.control_flags.crtscts = false :=
  ⟨(C7_dsrdtr_as_none
      { SerialPortSettings.default with flow_control := FlowControl.DsrDtr }
      bootTermios rfl).1,
   (C7_dsrdtr_as_none
      { SerialPortSettings.default with flow_control := FlowControl.DsrDtr }
      bootTermios rfl).2 demoC7Reconfigured rfl⟩

set_option maxHeartbeats 1000000 in
/-- C6: `reconfigure_port` is idempotent on both backends — if applying a
settings value succeeds, applying the identical settings to the resulting
native device state succeeds again and leaves that state unchanged. -/
theorem C6_reconfigure_idempotent (s : SerialPortSettings) :
    (∀ a a', TTYPort.reconfigure_port s a = .ok a' →
      TTYPort.reconfigure_port s a' = .ok a') ∧
    (∀ dev dev', COMPort.reconfigure_port s dev = .ok dev' →
      COMPort.reconfigure_port s dev' = .ok dev') := by
  obtain ⟨br, bs, pa, sb, rt, fc, wt, ibt, bl⟩ := s
  constructor
  · intro a a' h
    obtain ⟨cf, lf, ofl, ifl, isp, osp, vmn, vtm⟩ := a
    obtain ⟨inl, igc, icr, igb, pmk, ipk, ist, ixn, ixf, ixa, brk⟩ := ifl
    cases hb : baudFromU32 br with
    | none =>
      simp [TTYPort.reconfigure_port, setBaudStep, hb, except_error_bind] at h
    | some bb =>
      cases pmk <;> cases bs <;> cases pa <;> cases sb <;> cases fc <;> cases ibt <;>
        simp [TTYPort.reconfigure_port, setBaudStep, stopBitsStep, byteSizeStep,
          parityPrep, parityStep, flowControlStep, rawMode, vminVtimeStep,
          hb, except_ok_bind, except_error_bind] at h <;>
        first
        | (split at h
           next hn => exact Except.noConfusion h
           next hn =>
             simp only [Except.ok.injEq] at h
             subst h
             simp [TTYPort.reconfigure_port, setBaudStep, stopBitsStep,
               byteSizeStep, parityPrep, parityStep, flowControlStep, rawMode,
               vminVtimeStep, hb, hn, except_ok_bind])
        | (subst h
           simp [TTYPort.reconfigure_port, setBaudStep, stopBitsStep,
             byteSizeStep, parityPrep, parityStep, flowControlStep, rawMode,
             vminVtimeStep, hb, except_ok_bind])
  · intro dev dev' h
    simp only [COMPort.reconfigure_port] at h ⊢
    injection h with h
    subst h
    simp [buildDcb_idem]

/-- Witness for C6: the default settings applied to concrete device
states reach a fixed point after one application on both backends. -/
theorem C6_witness :
    TTYPort.reconfigure_port SerialPortSettings.default demoReconfigured =
      .ok demoReconfigured ∧
    COMPort.reconfigure_port SerialPortSettings.default demoDevReconfigured =
      .ok demoDevReconfigured :=
  ⟨(C6_reconfigure_idempotent SerialPortSettings.default).1 bootTermios
      demoReconfigured rfl,
   (C6_reconfigure_idempotent SerialPortSettings.default).2 bootDev
      demoDevReconfigured rfl⟩

end SerialRs
